import Mathlib

/-!
Shallow embedding of the go-scope structured-concurrency library
(package `scope`: scope.go, limit.go) and proofs about its behaviour.

The mutex in the Go code linearises every access to the shared record
`{firstErr, canceled}`, so the shared state is modelled as a value of
type `ScopeSt` and each critical section becomes a pure function on it.
Observer notifications are modelled as lists of emitted events.
-/

namespace GoScope

/-- Go error values as observable by this package: `errors.New` /
`fmt.Errorf` produce an error carrying a message string, and the scope
package never wraps errors, so `errors.Is` on recorded errors is plain
equality. -/
inductive Err where
  | msg : String → Err
deriving DecidableEq, Repr

/-- Model of `errors.Is` for the error values produced by this package:
no error in the scope package wraps another, so `errors.Is(err, target)`
holds exactly when the two values are equal. -/
def errorsIs (err target : Err) : Bool := err == target

/-- Observer lifecycle events (durations omitted; they are wall-clock
values irrelevant to the claims). -/
inductive Event where
  | scopeCreated
  | scopeCancelled (cause : Option Err)
  | scopeJoined
  | taskStarted
  | taskFinished (err : Option Err) (panicked : Bool)
deriving DecidableEq, Repr

/-- Whether an event is one of the per-task Observer hooks
(`TaskStarted` / `TaskFinished`). -/
def Event.isTaskEvent : Event → Bool
  | .taskStarted => true
  | .taskFinished _ _ => true
  | _ => false

/-- Model of a `context.Context` restricted to what the claims need:
its automatic-expiry instant, if any. Time instants are naturals. -/
structure Ctx where
  expiresAt : Option Nat
deriving DecidableEq, Repr

/-- Model of `context.Background()`: never expires on its own. -/
def background : Ctx := ⟨none⟩

/-- Model of `context.WithCancel(parent)`: independently cancellable,
inherits the parent's expiry instant. -/
def Ctx.withCancel (parent : Ctx) : Ctx := ⟨parent.expiresAt⟩

/-- Model of `context.WithDeadline(parent, d)`: the derived context
expires at `d`, or at the parent's own deadline if that is earlier. -/
def Ctx.withDeadlineAt (parent : Ctx) (d : Nat) : Ctx :=
  ⟨some (match parent.expiresAt with
    | none => d
    | some p => min p d)⟩

/-- Model of `context.WithTimeout(parent, t)` taken at instant `now`:
equal to `WithDeadline(parent, now+t)`. -/
def Ctx.withTimeoutAt (parent : Ctx) (now t : Nat) : Ctx :=
  parent.withDeadlineAt (now + t)

/-- Options from scope.go: `PanicAsError`, `Observer` (modelled by its
presence, nil vs non-nil), `MaxConcurrency`, and, in the full version of
the file, `Timeout` (a Duration, positive means set) and `Deadline`
(a time.Time, whose zero value 0 means unset, as tested by IsZero). -/
structure Options where
  panicAsError : Bool
  observer : Bool
  maxConcurrency : Int
  timeout : Int
  deadline : Nat
deriving DecidableEq, Repr

/-- Go `defaultOptions()`: `Options{PanicAsError: true}`, every other
field at its zero value. -/
def defaultOptions : Options :=
  { panicAsError := true, observer := false, maxConcurrency := 0,
    timeout := 0, deadline := 0 }

/-- Go `WithPanicAsError(v)`. -/
def withPanicAsError (v : Bool) (o : Options) : Options :=
  { o with panicAsError := v }

/-- Go `WithObserver(obs)`: records whether a non-nil observer was
supplied. -/
def withObserver (present : Bool) (o : Options) : Options :=
  { o with observer := present }

/-- Go `WithMaxConcurrency(n)`. -/
def withMaxConcurrency (n : Int) (o : Options) : Options :=
  { o with maxConcurrency := n }

/-- Go `WithTimeout(d)`. -/
def withTimeout (d : Int) (o : Options) : Options :=
  { o with timeout := d }

/-- Go `WithDeadline(t)`. -/
def withDeadline (t : Nat) (o : Options) : Options :=
  { o with deadline := t }

/-- Application of the option closures to a base `Options`, in order,
as the `for _, fn := range optFns { fn(&opts) }` loops do. -/
def applyOptions (optFns : List (Options → Options)) (base : Options) : Options :=
  optFns.foldl (fun o f => f o) base

/-- Go policies. -/
inductive Policy where
  | failFast
  | supervisor
deriving DecidableEq, Repr

/-- Go `newSemaphoreLimiter(n)` from limit.go: returns nil for `n <= 0`,
otherwise a semaphore limiter whose buffered channel has capacity `n`.
The limiter's identity, for the construction claims, is its capacity. -/
def newSemaphoreLimiter (n : Int) : Option Nat :=
  if n ≤ 0 then none else some n.toNat

/-- Static part of a `Scope` value: its derived context, policy,
resolved options, observer presence (`obs` field) and limiter
(`lim` field, nil or a capacity). -/
structure Scope where
  ctx : Ctx
  policy : Policy
  opts : Options
  obs : Bool
  lim : Option Nat
deriving DecidableEq, Repr

/-- Go `New(parent, policy, optFns...)` from the full version of
scope.go, taken at instant `now`: starts from `WithCancel(parent)`,
then, if `Deadline` is non-zero, replaces the context by
`WithDeadline(parent, Deadline)`; otherwise, if `Timeout > 0`, by
`WithTimeout(parent, Timeout)`. Sets `obs` from the options and builds
a limiter only when `MaxConcurrency > 0`. -/
def new (parent : Ctx) (policy : Policy) (optFns : List (Options → Options))
    (now : Nat) : Scope :=
  let opts := applyOptions optFns defaultOptions
  let ctx :=
    if opts.deadline ≠ 0 then parent.withDeadlineAt opts.deadline
    else if 0 < opts.timeout then parent.withTimeoutAt now opts.timeout.toNat
    else parent.withCancel
  { ctx := ctx, policy := policy, opts := opts, obs := opts.observer,
    lim := if 0 < opts.maxConcurrency then newSemaphoreLimiter opts.maxConcurrency
           else none }

/-- Go `Scope.Child(policy, optFns...)`: copies the parent's options,
applies the overrides, derives `WithCancel` from the parent's context,
and builds the child with the struct literal
`&Scope{ctx: ctx, cancel: cancel, policy: policy, opts: childOpts, obs: childOpts.Observer}`.
The `lim` field is absent from that literal, so it stays at its zero
value nil: the child never gets a limiter, whatever
`childOpts.MaxConcurrency` says. -/
def Scope.child (s : Scope) (policy : Policy)
    (optFns : List (Options → Options)) : Scope :=
  let childOpts := applyOptions optFns s.opts
  { ctx := s.ctx.withCancel, policy := policy, opts := childOpts,
    obs := childOpts.observer, lim := none }

/-- Mutex-guarded shared record of a scope: `{firstErr, canceled}`. -/
structure ScopeSt where
  firstErr : Option Err
  canceled : Bool
deriving DecidableEq, Repr

/-- Initial shared record of a freshly constructed scope. -/
def ScopeSt.init : ScopeSt := ⟨none, false⟩

/-- The assignment pattern `if s.firstErr == nil && err != nil { s.firstErr = err }`
(and the one in `fail`, where `err` is known non-nil). -/
def recordIfUnset (cur new : Option Err) : Option Err :=
  match cur, new with
  | none, some e => some e
  | cur, _ => cur

/-- Result of one `Cancel` critical section plus its post-unlock tail:
the new shared record, the Observer events emitted, and whether the
underlying `context.CancelFunc` was invoked. -/
structure CancelResult where
  st : ScopeSt
  events : List Event
  signalTriggered : Bool
deriving DecidableEq, Repr

/-- Go `Scope.Cancel(err)`: under the mutex, remembers `wasCanceled`,
sets `canceled = true`, records `err` only if no error is recorded yet
and `err` is non-nil, and reads back the cause; after unlocking it
always invokes the underlying cancel function, and notifies the
Observer (when present) only if `wasCanceled` was false. -/
def cancelOp (obs : Bool) (err : Option Err) (st : ScopeSt) : CancelResult :=
  let wasCanceled := st.canceled
  let fe := recordIfUnset st.firstErr err
  { st := ⟨fe, true⟩,
    events := if wasCanceled then [] else if obs then [Event.scopeCancelled fe] else [],
    signalTriggered := true }

/-- Result of one `fail` call: the new shared record and any Observer
events emitted by the `Cancel` it may trigger. -/
structure FailResult where
  st : ScopeSt
  events : List Event
deriving DecidableEq, Repr

/-- Go `Scope.fail(err)`: returns unchanged on nil `err`; otherwise,
under the mutex, records `err` only if `firstErr` is nil, computes
`shouldCancel` from the policy and reads back the cause; after
unlocking, under `FailFast` it calls `Cancel(cause)`. -/
def failOp (policy : Policy) (obs : Bool) (err : Option Err) (st : ScopeSt) :
    FailResult :=
  match err with
  | none => ⟨st, []⟩
  | some e =>
    let st1 : ScopeSt := ⟨recordIfUnset st.firstErr (some e), st.canceled⟩
    let cause := st1.firstErr
    if policy = Policy.failFast then
      let r := cancelOp obs cause st1
      ⟨r.st, r.events⟩
    else ⟨st1, []⟩

/-- Go `Scope.Wait()` after the WaitGroup has drained: emits
`ScopeJoined` when an Observer is present and returns `firstErr` read
under the mutex. The shared record is not modified. -/
def waitOp (obs : Bool) (st : ScopeSt) : Option Err × List Event :=
  (st.firstErr, if obs then [Event.scopeJoined] else [])

/-- How a task body terminates: by returning an optional error, or by
panicking with a value (already formatted, as `fmt` would print it). -/
inductive BodyResult where
  | ret (err : Option Err)
  | panics (v : String)
deriving DecidableEq, Repr

/-- Message of the error built by `fmt.Errorf("panic: %v", r)`. -/
def panicMessage (v : String) : String := "panic: " ++ v

/-- An error message is distinguishable as panic-class when it carries
the `panic: ` marker produced by the conversion. -/
def panicClass (m : String) : Prop := ∃ w, m = "panic: " ++ w

/-- Outcome of the goroutine wrapper that `Scope.Go` spawns: final
shared record, Observer events in emission order, whether the task body
was invoked, whether a limiter slot was acquired, and whether a panic
escapes the wrapper (re-raised on the goroutine). -/
structure WrapResult where
  st : ScopeSt
  events : List Event
  bodyRan : Bool
  slotAcquired : Bool
  repanics : Bool
deriving DecidableEq, Repr

/-- Tail of the wrapper once admission has been settled (`slot` says
whether a limiter slot is held): installs the recover handler, emits
`TaskStarted` when an Observer is present, runs the body, feeds a
non-nil returned error to `fail`, and emits `TaskFinished`. On a panic
with the panic-as-error option on, the recover handler converts the
panic value via `fmt.Errorf("panic: %v", r)`, feeds it to `fail` and
emits `TaskFinished` with the panicked flag; with the option off it
emits `TaskFinished(nil, true)` and re-raises the panic. -/
def runBody (sc : Scope) (body : BodyResult) (slot : Bool) (st : ScopeSt) :
    WrapResult :=
  let startEvs := if sc.obs then [Event.taskStarted] else []
  match body with
  | .ret err =>
      let r := failOp sc.policy sc.obs err st
      let finEvs := if sc.obs then [Event.taskFinished err false] else []
      ⟨r.st, startEvs ++ r.events ++ finEvs, true, slot, false⟩
  | .panics v =>
      if sc.opts.panicAsError then
        let e := Err.msg (panicMessage v)
        let r := failOp sc.policy sc.obs (some e) st
        let finEvs := if sc.obs then [Event.taskFinished (some e) true] else []
        ⟨r.st, startEvs ++ r.events ++ finEvs, true, slot, false⟩
      else
        let finEvs := if sc.obs then [Event.taskFinished none true] else []
        ⟨st, startEvs ++ finEvs, true, slot, true⟩

/-- The goroutine wrapper of `Scope.Go` for a non-nil task. When the
scope holds a limiter, `acqErr` is the result of `lim.Acquire(s.ctx)`:
on a non-nil error the wrapper records it via `s.fail(err)` and returns
at once, before the recover handler or any Observer call is installed;
on success it holds a slot for the rest of the wrapper. Without a
limiter the body path runs directly. -/
def runWrapper (sc : Scope) (acqErr : Option Err) (body : BodyResult)
    (st : ScopeSt) : WrapResult :=
  match sc.lim with
  | some _ =>
      match acqErr with
      | some e =>
          let r := failOp sc.policy sc.obs (some e) st
          ⟨r.st, r.events, false, false, false⟩
      | none => runBody sc body true st
  | none => runBody sc body false st

/-- Dynamic state of `semLimiter` from limit.go: the buffered channel
`ch` of capacity `cap` holds `tokens` items, one per occupied slot. -/
structure SemLimiter where
  cap : Nat
  tokens : Nat
deriving DecidableEq, Repr

/-- Go `semLimiter.Release()`: `select { case <-l.ch: default: }` — a
non-blocking receive that removes one buffered item when the channel is
non-empty and otherwise does nothing. Truncated subtraction on `tokens`
is exactly that. It never blocks and never fails. -/
def SemLimiter.release (l : SemLimiter) : SemLimiter :=
  { l with tokens := l.tokens - 1 }

/-- A limiter together with the number of callers currently holding a
slot (callers whose `Acquire` succeeded and who have not yet made their
balancing `Release`). -/
structure LimSys where
  lim : SemLimiter
  holders : Nat
deriving DecidableEq, Repr

/-- A successful `Acquire` step: the send `l.ch <- struct{}{}` is ready
exactly when the buffered channel holds fewer than `cap` items; the
caller then becomes a holder. Returns none when the send would block. -/
def LimSys.tryAcquire (s : LimSys) : Option LimSys :=
  if s.lim.tokens < s.lim.cap then
    some ⟨⟨s.lim.cap, s.lim.tokens + 1⟩, s.holders + 1⟩
  else none

/-- A `Release` by a caller that never successfully acquired: the pool
operation runs, but no holder gives up a slot. -/
def LimSys.releaseUnpaired (s : LimSys) : LimSys :=
  ⟨s.lim.release, s.holders⟩

/-- Linearised operations on one scope's shared record: a task failing
with an optional error (`fail`) and a `Cancel` call with an optional
cause. -/
inductive Op where
  | fail (e : Option Err)
  | cancel (e : Option Err)
deriving DecidableEq, Repr

/-- Effect of one linearised operation on the shared record. -/
def applyOp (policy : Policy) (obs : Bool) (st : ScopeSt) (op : Op) : ScopeSt :=
  match op with
  | .fail e => (failOp policy obs e st).st
  | .cancel e => (cancelOp obs e st).st

/-- Effect of a sequence of linearised operations, in order. -/
def applyOps (policy : Policy) (obs : Bool) (st : ScopeSt) (ops : List Op) :
    ScopeSt :=
  ops.foldl (applyOp policy obs) st

/-- Runtime state of one scope: its shared record and its WaitGroup
counter of outstanding tasks. -/
structure ScopeRT where
  st : ScopeSt
  counter : Nat
deriving DecidableEq, Repr

/-- Runtime state of a freshly constructed scope: empty record, zero
WaitGroup counter. -/
def ScopeRT.init : ScopeRT := ⟨ScopeSt.init, 0⟩

/-- A parent scope together with one child created by `Scope.Child`
(observers absent; they play no role in the joining claims). Each
scope has its own policy, shared record and WaitGroup counter. -/
structure Family where
  parentPolicy : Policy
  childPolicy : Policy
  parent : ScopeRT
  child : ScopeRT
deriving DecidableEq, Repr

/-- Go `Scope.Child` at the runtime level: the child starts with a
fresh zero WaitGroup and empty record, and nothing in `Child` touches
the parent's WaitGroup or record. -/
def mkFamily (ppol cpol : Policy) (p : ScopeRT) : Family :=
  ⟨ppol, cpol, p, ScopeRT.init⟩

/-- Linearised runtime operations on the pair of scopes: spawning a
task (`wg.Add(1)`) on either scope, a task of either scope finishing
with an optional error (`fail` then `wg.Done()`), and `Cancel` on
either scope. -/
inductive FamOp where
  | parentSpawn
  | parentTaskFinish (err : Option Err)
  | parentCancel (err : Option Err)
  | childSpawn
  | childTaskFinish (err : Option Err)
  | childCancel (err : Option Err)
deriving DecidableEq, Repr

/-- Whether a runtime operation acts on the child scope. -/
def FamOp.isChildOp : FamOp → Bool
  | .childSpawn | .childTaskFinish _ | .childCancel _ => true
  | _ => false

/-- Effect of one runtime operation on the pair of scopes: each
operation reads and writes only the scope it belongs to. -/
def famStep (f : Family) : FamOp → Family
  | .parentSpawn =>
      { f with parent := ⟨f.parent.st, f.parent.counter + 1⟩ }
  | .parentTaskFinish e =>
      { f with parent :=
          ⟨(failOp f.parentPolicy false e f.parent.st).st, f.parent.counter - 1⟩ }
  | .parentCancel e =>
      { f with parent := ⟨(cancelOp false e f.parent.st).st, f.parent.counter⟩ }
  | .childSpawn =>
      { f with child := ⟨f.child.st, f.child.counter + 1⟩ }
  | .childTaskFinish e =>
      { f with child :=
          ⟨(failOp f.childPolicy false e f.child.st).st, f.child.counter - 1⟩ }
  | .childCancel e =>
      { f with child := ⟨(cancelOp false e f.child.st).st, f.child.counter⟩ }

/-- Effect of a sequence of runtime operations, in order. -/
def famRun (f : Family) (ops : List FamOp) : Family :=
  ops.foldl famStep f

/-- Go `wg.Wait()` as a readiness predicate: `Wait` can return exactly
when the scope's own counter is zero. -/
def waitReady (rt : ScopeRT) : Bool := rt.counter = 0

/-- Value that `Wait` returns once ready: the scope's own recorded
error. -/
def waitResult (rt : ScopeRT) : Option Err := rt.st.firstErr

lemma recordIfUnset_some (v : Err) (e : Option Err) :
    recordIfUnset (some v) e = some v := by
  cases e <;> rfl

lemma cancelOp_firstErr_of_some (obs : Bool) (e : Option Err) (st : ScopeSt)
    (v : Err) (h : st.firstErr = some v) :
    (cancelOp obs e st).st.firstErr = some v := by
  simp [cancelOp, h, recordIfUnset_some]

lemma failOp_firstErr_of_some (p : Policy) (obs : Bool) (e : Option Err)
    (st : ScopeSt) (v : Err) (h : st.firstErr = some v) :
    (failOp p obs e st).st.firstErr = some v := by
  cases e with
  | none => simpa [failOp] using h
  | some e0 =>
    cases p <;> simp [failOp, cancelOp, h, recordIfUnset_some]

lemma failOp_firstErr_of_none (p : Policy) (obs : Bool) (e : Err)
    (st : ScopeSt) (h : st.firstErr = none) :
    (failOp p obs (some e) st).st.firstErr = some e := by
  cases p <;> simp [failOp, cancelOp, h, recordIfUnset, recordIfUnset_some]

/-- C4: for every scope and every linearised interleaving of `fail` and
`Cancel` operations, the recorded error is written at most once — once
`firstErr` holds a non-nil error, no later `fail` or `Cancel` with any
cause changes its value. -/
theorem firstErr_write_once (policy : Policy) (obs : Bool) (st : ScopeSt)
    (v : Err) (ops : List Op) (h : st.firstErr = some v) :
    (applyOps policy obs st ops).firstErr = some v := by
  induction ops generalizing st with
  | nil => simpa [applyOps] using h
  | cons op rest ih =>
    have h1 : (applyOp policy obs st op).firstErr = some v := by
      cases op with
      | fail e => exact failOp_firstErr_of_some policy obs e st v h
      | cancel e => exact cancelOp_firstErr_of_some obs e st v h
    exact ih (applyOp policy obs st op) h1

/-- Witness for `firstErr_write_once` at a concrete state and
interleaving. -/
theorem firstErr_write_once_witness :
    (⟨some (Err.msg "boom"), false⟩ : ScopeSt).firstErr = some (Err.msg "boom") ∧
    (applyOps Policy.failFast true ⟨some (Err.msg "boom"), false⟩
        [Op.cancel none, Op.fail (some (Err.msg "late")),
         Op.cancel (some (Err.msg "other"))]).firstErr
      = some (Err.msg "boom") :=
  ⟨rfl, firstErr_write_once Policy.failFast true
    ⟨some (Err.msg "boom"), false⟩ (Err.msg "boom")
    [Op.cancel none, Op.fail (some (Err.msg "late")),
     Op.cancel (some (Err.msg "other"))] rfl⟩

/-- C1 (code bug): in a `Supervisor` scope where one task fails with
`e1` and a later one with `e2`, the code keeps only `e1`: the shared
record after both failures is exactly `{firstErr = e1, canceled =
false}` (nothing else is retained anywhere), `Wait` returns `e1`, and
`errors.Is(e1, e2)` is false — so the value `Wait` returns exposes no
trace of `e2`, while the repo's own `TestSupervisorAggregatesErrors`
demands `errors.Is(Wait(), e2)`. -/
theorem supervisor_keeps_only_first_error :
    applyOps Policy.supervisor false ScopeSt.init
        [Op.fail (some (Err.msg "e1")), Op.fail (some (Err.msg "e2"))]
      = ⟨some (Err.msg "e1"), false⟩ ∧
    (waitOp false (applyOps Policy.supervisor false ScopeSt.init
        [Op.fail (some (Err.msg "e1")), Op.fail (some (Err.msg "e2"))])).1
      = some (Err.msg "e1") ∧
    errorsIs (Err.msg "e1") (Err.msg "e2") = false := by
  refine ⟨rfl, rfl, by decide⟩

/-- C2 (code bug): `New` with `MaxConcurrency 1` builds a capacity-1
limiter, but `Child` never fills the `lim` field of the struct literal
it builds, so a child scope has no limiter at all — whether the
max-concurrency option is passed to `Child` itself or inherited from
the parent's options — even though the child's resolved options still
carry `MaxConcurrency = 1`. -/
theorem child_never_gets_limiter :
    (new background Policy.supervisor [withMaxConcurrency 1] 0).lim = some 1 ∧
    ((new background Policy.supervisor [] 0).child Policy.supervisor
        [withMaxConcurrency 1]).lim = none ∧
    ((new background Policy.supervisor [withMaxConcurrency 1] 0).child
        Policy.supervisor []).lim = none ∧
    ((new background Policy.supervisor [] 0).child Policy.supervisor
        [withMaxConcurrency 1]).opts.maxConcurrency = 1 := by
  refine ⟨by decide, rfl, rfl, by decide⟩

/-- C3: constructing a scope with both a deadline and a timeout option
yields a context that expires at the absolute deadline, in whichever
order the options are given; with only the deadline set it expires at
the deadline, and with only the timeout set it expires at `now +
timeout`. -/
theorem deadline_takes_precedence (d : Nat) (t : Int) (now : Nat)
    (policy : Policy) (hd : d ≠ 0) (ht : 0 < t) :
    (new background policy [withDeadline d, withTimeout t] now).ctx.expiresAt
      = some d ∧
    (new background policy [withTimeout t, withDeadline d] now).ctx.expiresAt
      = some d ∧
    (new background policy [withDeadline d] now).ctx.expiresAt = some d ∧
    (new background policy [withTimeout t] now).ctx.expiresAt
      = some (now + t.toNat) := by
  refine ⟨?_, ?_, ?_, ?_⟩ <;>
    simp [new, applyOptions, defaultOptions, withDeadline, withTimeout,
      background, Ctx.withDeadlineAt, Ctx.withTimeoutAt, Ctx.withCancel, hd, ht]

/-- Witness for `deadline_takes_precedence` with deadline 50, timeout
30 and clock 7. -/
theorem deadline_takes_precedence_witness :
    (50 : Nat) ≠ 0 ∧ (0 : Int) < 30 ∧
    ((new background Policy.failFast [withDeadline 50, withTimeout 30] 7).ctx.expiresAt
        = some 50 ∧
     (new background Policy.failFast [withTimeout 30, withDeadline 50] 7).ctx.expiresAt
        = some 50 ∧
     (new background Policy.failFast [withDeadline 50] 7).ctx.expiresAt = some 50 ∧
     (new background Policy.failFast [withTimeout 30] 7).ctx.expiresAt = some 37) :=
  ⟨by decide, by decide,
    deadline_takes_precedence 50 30 7 Policy.failFast (by decide) (by decide)⟩

/-- C5 counterexample: after a first `Cancel` with a nil cause (the
scope is then already cancelled), a subsequent `Cancel` with a non-nil
cause does change the recorded cause, from nil to that cause — so "every
subsequent Cancel does not change the recorded cause" fails on the code
as stated. -/
theorem cancel_after_nil_cause_changes_recorded :
    (cancelOp true none ScopeSt.init).st.canceled = true ∧
    (cancelOp true (some (Err.msg "boom"))
        (cancelOp true none ScopeSt.init).st).st.firstErr
      ≠ (cancelOp true none ScopeSt.init).st.firstErr := by
  refine ⟨rfl, by decide⟩

/-- C5 (amended): every `Cancel` triggers the underlying signal; the
first invocation on a not-yet-cancelled scope notifies the Observer
(when present) exactly once with the recorded cause; any invocation on
an already-cancelled scope emits no Observer event; a subsequent
`Cancel` never changes an already-recorded non-nil cause (though a
non-nil-cause `Cancel` after only nil-cause ones does set the cause);
and `Wait` returns exactly the recorded error, so repeated `Wait`
calls on the final state return an identical value. -/
theorem cancel_idempotent_amended (obs : Bool) (e : Option Err) (st : ScopeSt) :
    (cancelOp obs e st).signalTriggered = true ∧
    (st.canceled = false → obs = true →
      (cancelOp obs e st).events
        = [Event.scopeCancelled (recordIfUnset st.firstErr e)]) ∧
    (st.canceled = true → (cancelOp obs e st).events = []) ∧
    (∀ v, st.firstErr = some v → (cancelOp obs e st).st.firstErr = some v) ∧
    (waitOp obs (cancelOp obs e st).st).1 = (cancelOp obs e st).st.firstErr := by
  refine ⟨rfl, ?_, ?_, ?_, rfl⟩
  · intro h1 h2
    simp [cancelOp, h1, h2]
  · intro h1
    simp [cancelOp, h1]
  · intro v hv
    exact cancelOp_firstErr_of_some obs e st v hv

/-- Witness for `cancel_idempotent_amended`: a second `Cancel` with a
late cause on an already-cancelled scope with recorded cause keeps the
cause, emits nothing, and still triggers the signal. -/
theorem cancel_idempotent_amended_witness :
    (cancelOp true (some (Err.msg "late"))
        ⟨some (Err.msg "cause"), true⟩).signalTriggered = true ∧
    (cancelOp true (some (Err.msg "late"))
        ⟨some (Err.msg "cause"), true⟩).events = [] ∧
    (cancelOp true (some (Err.msg "late"))
        ⟨some (Err.msg "cause"), true⟩).st.firstErr = some (Err.msg "cause") :=
  ⟨(cancel_idempotent_amended true (some (Err.msg "late"))
      ⟨some (Err.msg "cause"), true⟩).1,
   (cancel_idempotent_amended true (some (Err.msg "late"))
      ⟨some (Err.msg "cause"), true⟩).2.2.1 rfl,
   (cancel_idempotent_amended true (some (Err.msg "late"))
      ⟨some (Err.msg "cause"), true⟩).2.2.2.1 (Err.msg "cause") rfl⟩

/-- C6: on a scope that holds a limiter, when `Acquire` fails with an
error (the scope's signal fired before a slot freed), the wrapper never
runs the task body, holds no slot, exits normally, and passes the
acquisition error to `fail`, which records it as the scope's error
whenever none was recorded yet. -/
theorem acquire_failure_skips_body (sc : Scope) (c : Nat) (e : Err)
    (body : BodyResult) (st : ScopeSt) (hlim : sc.lim = some c) :
    (runWrapper sc (some e) body st).bodyRan = false ∧
    (runWrapper sc (some e) body st).slotAcquired = false ∧
    (runWrapper sc (some e) body st).repanics = false ∧
    (runWrapper sc (some e) body st).st
      = (failOp sc.policy sc.obs (some e) st).st ∧
    (st.firstErr = none →
      (runWrapper sc (some e) body st).st.firstErr = some e) := by
  refine ⟨?_, ?_, ?_, ?_, ?_⟩ <;> simp [runWrapper, hlim]
  intro h
  exact failOp_firstErr_of_none sc.policy sc.obs e st h

/-- Witness for `acquire_failure_skips_body` on a fresh capacity-1
fail-fast scope whose second task loses the `Acquire` race to a
cancellation. -/
theorem acquire_failure_skips_body_witness :
    (new background Policy.failFast [withMaxConcurrency 1] 0).lim = some 1 ∧
    ScopeSt.init.firstErr = none ∧
    (runWrapper (new background Policy.failFast [withMaxConcurrency 1] 0)
        (some (Err.msg "context canceled")) (BodyResult.ret none)
        ScopeSt.init).bodyRan = false ∧
    (runWrapper (new background Policy.failFast [withMaxConcurrency 1] 0)
        (some (Err.msg "context canceled")) (BodyResult.ret none)
        ScopeSt.init).st.firstErr = some (Err.msg "context canceled") :=
  ⟨rfl, rfl,
   (acquire_failure_skips_body
      (new background Policy.failFast [withMaxConcurrency 1] 0) 1
      (Err.msg "context canceled") (BodyResult.ret none) ScopeSt.init rfl).1,
   (acquire_failure_skips_body
      (new background Policy.failFast [withMaxConcurrency 1] 0) 1
      (Err.msg "context canceled") (BodyResult.ret none) ScopeSt.init rfl).2.2.2.2
     rfl⟩

/-- C7: with the panic-as-error option on and an Observer present, a
task body that panics is contained: the wrapper does not re-raise, the
body counts as run, the shared record is updated by `fail` with the
converted error `fmt.Errorf("panic: %v", r)` (recorded whenever no
error was recorded yet), that error's message carries the panic-class
marker, and `TaskFinished` is emitted with that error and the panicked
flag set. -/
theorem panic_converted_to_error (sc : Scope) (v : String) (st : ScopeSt)
    (hp : sc.opts.panicAsError = true) (ho : sc.obs = true) :
    (runWrapper sc none (BodyResult.panics v) st).repanics = false ∧
    (runWrapper sc none (BodyResult.panics v) st).bodyRan = true ∧
    (runWrapper sc none (BodyResult.panics v) st).st
      = (failOp sc.policy sc.obs (some (Err.msg (panicMessage v))) st).st ∧
    (st.firstErr = none →
      (runWrapper sc none (BodyResult.panics v) st).st.firstErr
        = some (Err.msg (panicMessage v))) ∧
    panicClass (panicMessage v) ∧
    Event.taskFinished (some (Err.msg (panicMessage v))) true
      ∈ (runWrapper sc none (BodyResult.panics v) st).events := by
  obtain ⟨slot, hw⟩ : ∃ slot, runWrapper sc none (BodyResult.panics v) st
      = runBody sc (BodyResult.panics v) slot st := by
    cases hl : sc.lim with
    | none => exact ⟨false, by simp [runWrapper, hl]⟩
    | some c => exact ⟨true, by simp [runWrapper, hl]⟩
  rw [hw]
  refine ⟨by simp [runBody, hp], by simp [runBody, hp], by simp [runBody, hp],
    ?_, ⟨v, rfl⟩, by simp [runBody, hp, ho]⟩
  intro h
  simp [runBody, hp]
  exact failOp_firstErr_of_none sc.policy sc.obs (Err.msg (panicMessage v)) st h

/-- Witness for `panic_converted_to_error` on a fresh supervisor scope
with an observer, whose task panics with value `boom`. -/
theorem panic_converted_to_error_witness :
    (new background Policy.supervisor [withObserver true] 0).opts.panicAsError
      = true ∧
    (new background Policy.supervisor [withObserver true] 0).obs = true ∧
    (runWrapper (new background Policy.supervisor [withObserver true] 0) none
        (BodyResult.panics "boom") ScopeSt.init).st.firstErr
      = some (Err.msg (panicMessage "boom")) ∧
    Event.taskFinished (some (Err.msg (panicMessage "boom"))) true
      ∈ (runWrapper (new background Policy.supervisor [withObserver true] 0)
          none (BodyResult.panics "boom") ScopeSt.init).events :=
  ⟨rfl, rfl,
   (panic_converted_to_error
      (new background Policy.supervisor [withObserver true] 0) "boom"
      ScopeSt.init rfl rfl).2.2.2.1 rfl,
   (panic_converted_to_error
      (new background Policy.supervisor [withObserver true] 0) "boom"
      ScopeSt.init rfl rfl).2.2.2.2.2⟩

/-- C8 counterexample: from an empty capacity-1 limiter, one successful
`Acquire` yields one occupied slot and one holder; a `Release` by a
caller that never acquired then changes the pool (occupied slots drop
from 1 to 0), after which a further `Acquire` succeeds and two callers
hold slots in a capacity-1 limiter — so an unpaired `Release` is not a
no-op on the pool and can let holders exceed the capacity. -/
theorem release_unpaired_not_noop :
    LimSys.tryAcquire ⟨⟨1, 0⟩, 0⟩ = some ⟨⟨1, 1⟩, 1⟩ ∧
    (LimSys.releaseUnpaired ⟨⟨1, 1⟩, 1⟩).lim.tokens
      ≠ (⟨⟨1, 1⟩, 1⟩ : LimSys).lim.tokens ∧
    LimSys.tryAcquire (LimSys.releaseUnpaired ⟨⟨1, 1⟩, 1⟩) = some ⟨⟨1, 1⟩, 2⟩ ∧
    (⟨⟨1, 1⟩, 2⟩ : LimSys).lim.cap < (⟨⟨1, 1⟩, 2⟩ : LimSys).holders := by
  decide

/-- C8 (amended): `Release` without a balancing prior `Acquire` is
safe — it is a total, never-blocking operation that preserves the
capacity and the set of holders, and when no slot is occupied it leaves
the limiter entirely unchanged; but in general it removes one occupied
slot from the pool (the non-blocking receive), even though its caller
held none. -/
theorem release_safe_noop_only_when_empty (s : LimSys) :
    s.releaseUnpaired.lim.cap = s.lim.cap ∧
    s.releaseUnpaired.holders = s.holders ∧
    s.releaseUnpaired.lim.tokens = s.lim.tokens - 1 ∧
    (s.lim.tokens = 0 → s.releaseUnpaired = s) := by
  refine ⟨rfl, rfl, rfl, ?_⟩
  intro h
  cases s with
  | mk l hold =>
    cases l with
    | mk c tk =>
      have h2 : tk = 0 := h
      subst h2
      rfl

/-- Witness for `release_safe_noop_only_when_empty` on an empty
capacity-1 limiter. -/
theorem release_safe_noop_only_when_empty_witness :
    (⟨⟨1, 0⟩, 0⟩ : LimSys).lim.tokens = 0 ∧
    LimSys.releaseUnpaired ⟨⟨1, 0⟩, 0⟩ = ⟨⟨1, 0⟩, 0⟩ :=
  ⟨rfl, (release_safe_noop_only_when_empty ⟨⟨1, 0⟩, 0⟩).2.2.2 rfl⟩

lemma failOp_events_no_task (p : Policy) (obs : Bool) (e : Option Err)
    (st : ScopeSt) :
    ((failOp p obs e st).events.all fun ev => !ev.isTaskEvent) = true := by
  cases e with
  | none => rfl
  | some e0 =>
    cases p with
    | failFast =>
      cases hc : st.canceled with
      | true => simp [failOp, cancelOp, hc]
      | false =>
        cases obs <;> simp [failOp, cancelOp, hc, Event.isTaskEvent]
    | supervisor => rfl

/-- C9: on a scope that holds a limiter, a task whose `Acquire` fails
emits no per-task Observer event at all — every event on that wrapper
path is a non-task event — even though the acquisition error is still
fed to `fail` and recorded whenever no error was recorded yet. -/
theorem acquire_failure_emits_no_task_events (sc : Scope) (c : Nat) (e : Err)
    (body : BodyResult) (st : ScopeSt) (hlim : sc.lim = some c) :
    ((runWrapper sc (some e) body st).events.all fun ev => !ev.isTaskEvent)
      = true ∧
    (runWrapper sc (some e) body st).st
      = (failOp sc.policy sc.obs (some e) st).st ∧
    (st.firstErr = none →
      (runWrapper sc (some e) body st).st.firstErr = some e) := by
  refine ⟨?_, ?_, ?_⟩
  · have hev := failOp_events_no_task sc.policy sc.obs (some e) st
    simpa [runWrapper, hlim] using hev
  · simp [runWrapper, hlim]
  · intro h
    simp only [runWrapper, hlim]
    exact failOp_firstErr_of_none sc.policy sc.obs e st h

/-- Witness for `acquire_failure_emits_no_task_events` on a capacity-1
fail-fast scope with an observer: the acquisition failure records the
error yet emits no task-started or task-finished event. -/
theorem acquire_failure_emits_no_task_events_witness :
    (new background Policy.failFast [withMaxConcurrency 1, withObserver true]
        0).lim = some 1 ∧
    (((runWrapper
        (new background Policy.failFast [withMaxConcurrency 1, withObserver true] 0)
        (some (Err.msg "context canceled")) (BodyResult.ret none)
        ScopeSt.init).events.all fun ev => !ev.isTaskEvent) = true) ∧
    (runWrapper
        (new background Policy.failFast [withMaxConcurrency 1, withObserver true] 0)
        (some (Err.msg "context canceled")) (BodyResult.ret none)
        ScopeSt.init).st.firstErr = some (Err.msg "context canceled") :=
  ⟨rfl,
   (acquire_failure_emits_no_task_events
      (new background Policy.failFast [withMaxConcurrency 1, withObserver true] 0)
      1 (Err.msg "context canceled") (BodyResult.ret none) ScopeSt.init rfl).1,
   (acquire_failure_emits_no_task_events
      (new background Policy.failFast [withMaxConcurrency 1, withObserver true] 0)
      1 (Err.msg "context canceled") (BodyResult.ret none) ScopeSt.init rfl).2.2
     rfl⟩

lemma famStep_child_preserves_parent (f : Family) (op : FamOp)
    (h : op.isChildOp = true) : (famStep f op).parent = f.parent := by
  cases op <;> simp_all [famStep, FamOp.isChildOp]

/-- C10: `Child` hands back a scope with a fresh zero task counter and
registers nothing with the parent, and every operation on the child
(spawn, task completion with any error, Cancel) leaves the parent's
runtime state untouched — so the parent's `Wait` readiness and the
value it returns are exactly what the parent's own tasks made them,
whatever the child does. -/
theorem parent_wait_independent_of_child (ppol cpol : Policy) (p : ScopeRT)
    (ops : List FamOp) (h : ∀ op ∈ ops, op.isChildOp = true) :
    (mkFamily ppol cpol p).parent = p ∧
    (mkFamily ppol cpol p).child.counter = 0 ∧
    (famRun (mkFamily ppol cpol p) ops).parent = p ∧
    waitReady (famRun (mkFamily ppol cpol p) ops).parent = waitReady p ∧
    waitResult (famRun (mkFamily ppol cpol p) ops).parent = waitResult p := by
  have key : ∀ (l : List FamOp) (f : Family),
      (∀ op ∈ l, op.isChildOp = true) → (famRun f l).parent = f.parent := by
    intro l
    induction l with
    | nil => intro f _; rfl
    | cons op rest ih =>
      intro f hl
      have h1 : op.isChildOp = true := hl op (List.mem_cons_self op rest)
      have h2 : ∀ o ∈ rest, o.isChildOp = true :=
        fun o ho => hl o (List.mem_cons_of_mem op ho)
      calc (famRun f (op :: rest)).parent
          = (famRun (famStep f op) rest).parent := rfl
        _ = (famStep f op).parent := ih (famStep f op) h2
        _ = f.parent := famStep_child_preserves_parent f op h1
  have hp : (famRun (mkFamily ppol cpol p) ops).parent = p :=
    key ops (mkFamily ppol cpol p) h
  exact ⟨rfl, rfl, hp, by rw [hp], by rw [hp]⟩

/-- Witness for `parent_wait_independent_of_child`: a drained parent
stays ready with a nil result while the child spawns tasks, records a
failure, and still has an outstanding task. -/
theorem parent_wait_independent_of_child_witness :
    (∀ op ∈ ([FamOp.childSpawn,
        FamOp.childTaskFinish (some (Err.msg "child-err")),
        FamOp.childSpawn] : List FamOp), op.isChildOp = true) ∧
    (famRun (mkFamily Policy.failFast Policy.failFast ScopeRT.init)
        [FamOp.childSpawn, FamOp.childTaskFinish (some (Err.msg "child-err")),
         FamOp.childSpawn]).child.counter = 1 ∧
    (famRun (mkFamily Policy.failFast Policy.failFast ScopeRT.init)
        [FamOp.childSpawn, FamOp.childTaskFinish (some (Err.msg "child-err")),
         FamOp.childSpawn]).child.st.firstErr = some (Err.msg "child-err") ∧
    (famRun (mkFamily Policy.failFast Policy.failFast ScopeRT.init)
        [FamOp.childSpawn, FamOp.childTaskFinish (some (Err.msg "child-err")),
         FamOp.childSpawn]).parent = ScopeRT.init ∧
    waitReady (famRun (mkFamily Policy.failFast Policy.failFast ScopeRT.init)
        [FamOp.childSpawn, FamOp.childTaskFinish (some (Err.msg "child-err")),
         FamOp.childSpawn]).parent = waitReady ScopeRT.init ∧
    waitResult (famRun (mkFamily Policy.failFast Policy.failFast ScopeRT.init)
        [FamOp.childSpawn, FamOp.childTaskFinish (some (Err.msg "child-err")),
         FamOp.childSpawn]).parent = waitResult ScopeRT.init :=
  ⟨by decide, rfl, rfl,
   (parent_wait_independent_of_child Policy.failFast Policy.failFast ScopeRT.init
      [FamOp.childSpawn, FamOp.childTaskFinish (some (Err.msg "child-err")),
       FamOp.childSpawn] (by decide)).2.2.1,
   (parent_wait_independent_of_child Policy.failFast Policy.failFast ScopeRT.init
      [FamOp.childSpawn, FamOp.childTaskFinish (some (Err.msg "child-err")),
       FamOp.childSpawn] (by decide)).2.2.2.1,
   (parent_wait_independent_of_child Policy.failFast Policy.failFast ScopeRT.init
      [FamOp.childSpawn, FamOp.childTaskFinish (some (Err.msg "child-err")),
       FamOp.childSpawn] (by decide)).2.2.2.2⟩

end GoScope
